import Mathlib

/-!
Shallow embedding of the mirabel_rs plugin-bridge library and its example
game, written for verifying the natural-language specification against the
source.  Pure data and the per-call state transitions of the trampoline
layer are translated into executable Lean definitions; raw pointers become
`Option` values (`none` models a NULL pointer), machine integers become
`Nat` with explicit truncation where a cast occurs in the source, and
fallible calls return `Except`.
-/

namespace MirabelRs

/-- Modelled from the spec: the recoverable error taxonomy of section 7
backed by the crate's `error.rs`, which is not among the provided sources
(only its users are).  The claims below only need the constructors used by
the sources and that every recoverable kind is distinct from success. -/
inductive ErrorCode where
  | invalidInput
  | invalidMove
  | invalidOptions
  | invalidLegacy
  | featureUnsupported
  | stateCorrupted
deriving DecidableEq, Repr

/-- Return-code type of the C ABI (`sys::error_code`): either the success
code `ERR_ERR_OK` or the code of a recoverable error.  The trampolines
produce `err c` via `error.code.into()`. -/
inductive error_code where
  | ok
  | err (code : ErrorCode)
deriving DecidableEq, Repr

/-- Modelled from the spec: the `Error` of the missing `error.rs`, a
(code, message) pair as described in sections 4.5 and 7.  `new_static`
messages carry a trailing NUL terminator in the source; the terminator is a
transport artifact and is dropped here. -/
structure Error where
  code : ErrorCode
  message : String
deriving DecidableEq, Repr

/-- Result type of the capability traits (`error::Result<T>`). -/
abbrev SResult (α : Type) := Except Error α

/-- Generic move-with-sync pair from `base/mod.rs` (`MoveDataSync<M>`). -/
structure MoveDataSync (M : Type) where
  md : M
  sync_ctr : Nat
deriving DecidableEq, Repr

/-- Wire move value (`sys::move_data`).  The union member `cl` holds a move
code (u64) or a length (usize) depending on the discriminant; the `data`
pointer is modelled as `none` for NULL and `some bytes` for a valid
allocation holding the pointed-to bytes. -/
structure move_data where
  cl : Nat
  data : Option (List Nat)
deriving DecidableEq, Repr

/-- Safe move variant from `base/event.rs` (`MoveData<'l>`). -/
inductive MoveDataR where
  | MoveCode (code : Nat)
  | BigMove (bytes : List Nat)
deriving DecidableEq, Repr

/-- Decoder `MoveData::from_ref` from `base/event.rs`: a move is a big move
iff `data != NULL`; a non-null zero-length payload is handled as the empty
big move; otherwise the view has the declared length `cl.len`. -/
def MoveDataR.from_ref (md : move_data) : MoveDataR :=
  match md.data with
  | none => .MoveCode md.cl
  | some bytes => if md.cl = 0 then .BigMove [] else .BigMove (bytes.take md.cl)

/-- Encoder `From<MoveData<'l>> for move_data` from `base/event.rs`: a move
code gets a NULL payload pointer, a big move the slice pointer (never NULL,
also for the empty slice) and its length. -/
def MoveDataR.toWire : MoveDataR → move_data
  | .MoveCode code => { cl := code, data := none }
  | .BigMove slice => { cl := slice.length, data := some slice }

/-- Modelled from the spec: `from_raw_hedged` of the crate root, which is
not among the provided sources; per its uses it builds a borrowed view of
`len` elements of the allocation, valid also for the zero-length case. -/
def from_raw_hedged (bytes : List Nat) (len : Nat) : List Nat :=
  bytes.take len

/-- Owned mixed move from `surena/game.rs` (`MixedMove`), a transparent
wrapper around the wire struct. -/
structure MixedMove where
  raw : move_data
deriving DecidableEq, Repr

/-- Conversion `From<Vec<u8>> for MixedMove`: empty big moves keep a
non-NULL data pointer, which holds for slice pointers. -/
def MixedMove.ofVec (v : List Nat) : MixedMove :=
  { raw := { cl := v.length, data := some v } }

/-- Conversion `From<move_code> for MixedMove`. -/
def MixedMove.ofCode (c : Nat) : MixedMove :=
  { raw := { cl := c, data := none } }

/-- Decoder `MixedMove::to_rust` from `surena/game.rs`. -/
def MixedMove.to_rust (m : MixedMove) : MoveDataR :=
  match m.raw.data with
  | none => .MoveCode m.raw.cl
  | some bytes => .BigMove (from_raw_hedged bytes m.raw.cl)

/-- Per-instance auxiliary state of the game bridge (`Aux<G>` in
`surena/game.rs`), generic over the owned move type `G::Move`.  The
`c_float` entries of `float_buf` are opaque to the bridge (only stored and
counted), so they are represented by an uninterpreted numeric stand-in. -/
structure Aux (M : Type) where
  str_buf : String
  player_buf : List Nat
  move_buf : List M
  sync_buf : MoveDataSync M
  float_buf : List Nat
  error : String
deriving DecidableEq, Repr

/-- Default auxiliary state, as allocated by `Aux::init` through
`Box::<Self>::default()`. -/
def Aux.mkDefault {M : Type} [Inhabited M] : Aux M :=
  { str_buf := ""
    player_buf := []
    move_buf := []
    sync_buf := { md := default, sync_ctr := 0 }
    float_buf := []
    error := "" }

/-- Opaque instance handle of the game bridge (`sys::game`): the two
extension slots `data1` (user object) and `data2` (auxiliary state), plus
the `sync_ctr` header field.  A NULL slot is `none`. -/
structure game (G M : Type) where
  data1 : Option G
  data2 : Option (Aux M)
  sync_ctr : Nat
deriving DecidableEq, Repr

/-- Trampoline `create_wrapped` from `surena/game.rs`: zero `data1`, run
`Aux::init` (which allocates the default auxiliary state into `data2`),
invoke `G::create`; on success store the boxed user object in `data1` and
return `ERR_ERR_OK`; on failure `surena_try` records the message in the
auxiliary state and returns the error's code with `data1` left NULL. -/
def create_wrapped {G M : Type} [Inhabited M] (create : SResult G)
    (g : game G M) : game G M × error_code :=
  let g := { g with data1 := none, data2 := some Aux.mkDefault }
  match create with
  | .error e =>
      ({ g with data2 := some { Aux.mkDefault with error := e.message } },
        .err e.code)
  | .ok d => ({ g with data1 := some d }, .ok)

/-- Tag naming which of the two heap allocations a `destroy` freed. -/
inductive Slot where
  | user
  | aux
deriving DecidableEq, Repr

/-- Trampoline `destroy_wrapped` from `surena/game.rs` together with
`Aux::free`: drop `data1` if non-NULL and null it, then drop `data2` if
non-NULL and null it; the returned list records which allocations were
freed, in order. -/
def destroy_wrapped {G M : Type} (g : game G M) :
    game G M × List Slot × error_code :=
  let (g1, f1) :=
    match g.data1 with
    | some _ => ({ g with data1 := none }, [Slot.user])
    | none => (g, [])
  let (g2, f2) :=
    match g1.data2 with
    | some _ => ({ g1 with data2 := none }, [Slot.aux])
    | none => (g1, [])
  (g2, f1 ++ f2, .ok)

/-- Result of a string-returning query trampoline: the updated user object
and auxiliary state (the two slots located by `get_both`), the
(pointer, size) pair written through `ret_str`/`ret_size` on success, and
the returned code. -/
structure QueryResult (G M : Type) where
  data : G
  aux : Aux M
  output : Option (String × Nat)
  code : error_code
deriving DecidableEq, Repr

/-- Trampoline `export_state_wrapped` from `surena/game.rs`.  The method
argument models `G::export_state(&mut self, player, &mut str_buf)`: it
receives the buffer contents (the trampoline has just reset them to the
default, empty string) and returns the updated game, the buffer contents it
left behind, and an optional error.  On success the buffer pointer and its
byte length are written out; on failure `surena_try` stores the message and
returns the code, with the buffer keeping whatever the method wrote. -/
def export_state_wrapped {G M : Type}
    (method : G → Nat → String → G × String × Option Error)
    (player : Nat) (d : G) (aux : Aux M) : QueryResult G M :=
  match method d player "" with
  | (d, buf, some e) =>
      { data := d, aux := { aux with str_buf := buf, error := e.message }
        output := none, code := .err e.code }
  | (d, buf, none) =>
      { data := d, aux := { aux with str_buf := buf }
        output := some (buf, buf.length), code := .ok }

/-- Trampoline `get_move_str_wrapped` from `surena/game.rs`.  The wire move
is decoded by `new_sync`, i.e. `M::from_ref(&mov.md).to_rust()` with the
composed decoder passed as `toRust`; the shared string buffer `str_buf` is
reset and then handed to the capability method exactly as in
`export_state_wrapped`. -/
def get_move_str_wrapped {G M R : Type} (toRust : move_data → R)
    (method : G → Nat → MoveDataSync R → String → G × String × Option Error)
    (player : Nat) (mov : MoveDataSync move_data)
    (d : G) (aux : Aux M) : QueryResult G M :=
  match method d player { md := toRust mov.md, sync_ctr := mov.sync_ctr }
      "" with
  | (d, buf, some e) =>
      { data := d, aux := { aux with str_buf := buf, error := e.message }
        output := none, code := .err e.code }
  | (d, buf, none) =>
      { data := d, aux := { aux with str_buf := buf }
        output := some (buf, buf.length), code := .ok }

/-- Result of a list-returning query trampoline, with element type `A`. -/
structure ListQueryResult (G M A : Type) where
  data : G
  aux : Aux M
  output : Option (List A × Nat)
  code : error_code
deriving DecidableEq, Repr

/-- Trampoline `players_to_move_wrapped` from `surena/game.rs`: clear the
shared `player_buf`, run the capability method on it, and on success write
the buffer pointer and its length converted by
`try_into().expect("player buffer too large")` into the `u8` out-count.
The overall `none` models the process abort of `expect` when the buffer
holds more than 255 entries; `some` carries the normal return. -/
def players_to_move_wrapped {G M : Type}
    (method : G → List Nat → G × List Nat × Option Error)
    (d : G) (aux : Aux M) : Option (ListQueryResult G M Nat) :=
  match method d [] with
  | (d, buf, some e) =>
      some { data := d, aux := { aux with player_buf := buf, error := e.message }
             output := none, code := .err e.code }
  | (d, buf, none) =>
      if buf.length ≤ 255 then
        some { data := d, aux := { aux with player_buf := buf }
               output := some (buf, buf.length), code := .ok }
      else none

/-- Trampoline `get_results_wrapped` from `surena/game.rs`; identical shape
to `players_to_move_wrapped` and writing the same shared `player_buf`, with
the same `u8` out-count conversion. -/
def get_results_wrapped {G M : Type}
    (method : G → List Nat → G × List Nat × Option Error)
    (d : G) (aux : Aux M) : Option (ListQueryResult G M Nat) :=
  match method d [] with
  | (d, buf, some e) =>
      some { data := d, aux := { aux with player_buf := buf, error := e.message }
             output := none, code := .err e.code }
  | (d, buf, none) =>
      if buf.length ≤ 255 then
        some { data := d, aux := { aux with player_buf := buf }
               output := some (buf, buf.length), code := .ok }
      else none

/-- Trampoline `get_concrete_moves_wrapped` from `surena/game.rs`: clear
the shared `move_buf`, run the capability method, and on success convert
the length with `try_into().expect("move buffer too long")` into the `u32`
out-count; `none` models the abort on more than `u32::MAX` entries. -/
def get_concrete_moves_wrapped {G M : Type}
    (method : G → Nat → List M → G × List M × Option Error)
    (player : Nat) (d : G) (aux : Aux M) : Option (ListQueryResult G M M) :=
  match method d player [] with
  | (d, buf, some e) =>
      some { data := d, aux := { aux with move_buf := buf, error := e.message }
             output := none, code := .err e.code }
  | (d, buf, none) =>
      if buf.length ≤ 4294967295 then
        some { data := d, aux := { aux with move_buf := buf }
               output := some (buf, buf.length), code := .ok }
      else none

/-- Trampoline `get_concrete_move_probabilities_wrapped` from
`surena/game.rs`: clear the shared `float_buf`, run the capability method,
and on success convert the length with
`try_into().expect("probability buffer too large")` into the `u32`
out-count; `none` models the abort on more than `u32::MAX` entries. -/
def get_concrete_move_probabilities_wrapped {G M : Type}
    (method : G → List Nat → G × List Nat × Option Error)
    (d : G) (aux : Aux M) : Option (ListQueryResult G M Nat) :=
  match method d [] with
  | (d, buf, some e) =>
      some { data := d, aux := { aux with float_buf := buf, error := e.message }
             output := none, code := .err e.code }
  | (d, buf, none) =>
      if buf.length ≤ 4294967295 then
        some { data := d, aux := { aux with float_buf := buf }
               output := some (buf, buf.length), code := .ok }
      else none

/-- Per-instance auxiliary state of the frontend bridge (`Aux<'l, F>` in
`gui/frontend.rs`): the error slot, the stored pointer to the host's
display data (kept opaque here), and the pointer to the pre-create options
(`none` models NULL).  The skia surface cache is feature-gated and not
needed by the claims. -/
structure FAux (O : Type) where
  error : String
  display_data : Nat
  options : Option O
deriving DecidableEq, Repr

/-- Opaque instance handle of the frontend bridge (`sys::frontend`) with
its two extension slots. -/
structure frontend (F O : Type) where
  data1 : Option F
  data2 : Option (FAux O)
deriving DecidableEq, Repr

/-- Trampoline `FrontendMethods::create_wrapped` from `gui/frontend.rs`:
zero `data1`, run `Aux::init` (storing the display-data and options
pointers next to an empty error), invoke `Self::create`; on failure
`mirabel_try` records the message and returns the error's code with
`data1` left NULL; on success the user object is stored in `data1` and the
function returns `ERR_ERR_FEATURE_UNSUPPORTED` — this final constant is
taken verbatim from the source. -/
def FrontendMethods.create_wrapped {F O : Type} (create : SResult F)
    (display_data : Nat) (options : Option O) (fe : frontend F O) :
    frontend F O × error_code :=
  let fe := { fe with
    data1 := none
    data2 := some { error := "", display_data := display_data, options := options } }
  match create with
  | .error e =>
      ({ fe with
          data2 := some { error := e.message, display_data := display_data
                          options := options } },
        .err e.code)
  | .ok d => ({ fe with data1 := some d }, .err .featureUnsupported)

/-- Semantic version triple (`sys::semver`). -/
structure semver where
  major : Nat
  minor : Nat
  patch : Nat
deriving DecidableEq, Repr

/-- Feature bitset of the game ABI (`sys::game_feature_flags`); only the
bits touched by the wrapper are modelled. -/
structure game_feature_flags where
  error_strings : Bool := false
  options : Bool := false
  random_moves : Bool := false
  hidden_information : Bool := false
  print : Bool := false
  big_moves : Bool := false
deriving DecidableEq, Repr

/-- Optional game features supported by the wrapper (`GameFeatures` in
`surena/game.rs`). -/
structure GameFeatures where
  options : Bool := false
  random_moves : Bool := false
  hidden_information : Bool := false
  print : Bool := false
deriving DecidableEq, Repr

/-- Conversion `GameFeatures::feature_flags`. -/
def GameFeatures.feature_flags (f : GameFeatures) : game_feature_flags :=
  { options := f.options
    random_moves := f.random_moves
    hidden_information := f.hidden_information
    print := f.print }

/-- Non-function members for `game_methods` (`Metadata` in
`surena/game.rs`). -/
structure Metadata where
  game_name : String
  variant_name : String
  impl_name : String
  version : semver
  features : GameFeatures
deriving DecidableEq, Repr

/-- Exported function-pointer table of the game ABI
(`sys::game_methods`).  Each entry point is `some ()` when the builder
binds a trampoline there and `none` for a NULL pointer; fields of the C
struct not listed by the builder are zeroed by `..Default::default()` and
omitted here. -/
structure game_methods where
  game_name : String
  variant_name : String
  impl_name : String
  version : semver
  features : game_feature_flags
  get_last_error : Option Unit := none
  create : Option Unit := none
  export_options : Option Unit := none
  destroy : Option Unit := none
  clone : Option Unit := none
  copy_from : Option Unit := none
  compare : Option Unit := none
  player_count : Option Unit := none
  import_state : Option Unit := none
  export_state : Option Unit := none
  players_to_move : Option Unit := none
  get_concrete_moves : Option Unit := none
  get_concrete_move_probabilities : Option Unit := none
  get_random_move : Option Unit := none
  get_actions : Option Unit := none
  move_to_action : Option Unit := none
  is_legal_move : Option Unit := none
  make_move : Option Unit := none
  get_results : Option Unit := none
  redact_keep_state : Option Unit := none
  get_move_data : Option Unit := none
  get_move_str : Option Unit := none
  print : Option Unit := none
deriving DecidableEq, Repr

/-- Table builder `create_game_methods` from `surena/game.rs`, with the
generic game type represented by its `G::Move::BIG_MOVES` constant: it
forces `error_strings` on, copies `big_moves` from the move type, and binds
every entry point unconditionally with `Some(..)`. -/
def create_game_methods (bigMoves : Bool) (metadata : Metadata) :
    game_methods :=
  let features := { metadata.features.feature_flags with
    error_strings := true, big_moves := bigMoves }
  { game_name := metadata.game_name
    variant_name := metadata.variant_name
    impl_name := metadata.impl_name
    version := metadata.version
    features := features
    get_last_error := some ()
    create := some ()
    export_options := some ()
    destroy := some ()
    clone := some ()
    copy_from := some ()
    compare := some ()
    player_count := some ()
    import_state := some ()
    export_state := some ()
    players_to_move := some ()
    get_concrete_moves := some ()
    get_concrete_move_probabilities := some ()
    get_random_move := some ()
    get_actions := some ()
    move_to_action := some ()
    is_legal_move := some ()
    make_move := some ()
    get_results := some ()
    redact_keep_state := some ()
    get_move_data := some ()
    get_move_str := some ()
    print := some () }

/-- Feature bitset of the frontend ABI (`sys::frontend_feature_flags`);
the wrapper only reads the `options` bit. -/
structure frontend_feature_flags where
  options : Bool := false
deriving DecidableEq, Repr

/-- Non-function members for `frontend_methods` (`Metadata` in
`gui/frontend.rs`). -/
structure FrontendMetadata where
  frontend_name : String
  version : semver
  features : frontend_feature_flags
deriving DecidableEq, Repr

/-- Exported function-pointer table of the frontend ABI
(`sys::frontend_methods`); entries as in `game_methods`. -/
structure frontend_methods where
  frontend_name : String
  version : semver
  features : frontend_feature_flags
  opts_create : Option Unit := none
  opts_display : Option Unit := none
  opts_destroy : Option Unit := none
  get_last_error : Option Unit := none
  create : Option Unit := none
  destroy : Option Unit := none
  runtime_opts_display : Option Unit := none
  process_event : Option Unit := none
  process_input : Option Unit := none
  update : Option Unit := none
  render : Option Unit := none
  is_game_compatible : Option Unit := none
deriving DecidableEq, Repr

/-- Table builder `create_frontend_methods` from `gui/frontend.rs`: the
three options entry points are bound only when the `options` feature bit is
set, every other listed entry point is bound unconditionally. -/
def create_frontend_methods (metadata : FrontendMetadata) :
    frontend_methods :=
  { frontend_name := metadata.frontend_name
    version := metadata.version
    features := metadata.features
    opts_create := if metadata.features.options then some () else none
    opts_display := if metadata.features.options then some () else none
    opts_destroy := if metadata.features.options then some () else none
    get_last_error := some ()
    create := some ()
    destroy := some ()
    runtime_opts_display := some ()
    process_event := some ()
    process_input := some ()
    update := some ()
    render := some ()
    is_game_compatible := some () }

/-- Tag constant of the `EVENT_TYPE` C enum for game-load-methods events.
The enum's concrete numeric values live in the generated bindings, which
are not among the provided sources; the decoder only compares tags for
equality, so representative distinct values are used. -/
def EVENT_TYPE_GAME_LOAD_METHODS : Nat := 10

/-- Tag constant of the `EVENT_TYPE` C enum for game-unload events. -/
def EVENT_TYPE_GAME_UNLOAD : Nat := 11

/-- Tag constant of the `EVENT_TYPE` C enum for game-state events. -/
def EVENT_TYPE_GAME_STATE : Nat := 12

/-- Tag constant of the `EVENT_TYPE` C enum for game-move events. -/
def EVENT_TYPE_GAME_MOVE : Nat := 13

/-- Base event fields shared by all wire events (`Event` in
`base/event.rs`). -/
structure Event where
  type_ : Nat
  client_id : Nat
  lobby_id : Nat
deriving DecidableEq, Repr

/-- Wire event union (`sys::event_any`): the base fields together with the
payload fields of every arm, of which only the arm selected by `type_` is
meaningful.  The game-load-methods payload keeps its methods pointer and
init info opaque; the game-state payload is an optional NUL-terminated
string; the game-move payload is a player and a synced wire move. -/
structure event_any where
  type_ : Nat
  client_id : Nat
  lobby_id : Nat
  methods : Nat
  init_info : Option String
  state : Option String
  player : Nat
  data : MoveDataSync move_data
deriving DecidableEq, Repr

/-- Safe event variant (`EventEnum` in `base/event.rs`). -/
inductive EventEnum where
  | GameLoadMethods (base : Event) (methods : Nat) (init_info : Option String)
  | GameUnload (base : Event)
  | GameState (base : Event) (state : Option String)
  | GameMove (base : Event) (player : Nat) (data : MoveDataSync MoveDataR)
  | Unknown
deriving DecidableEq, Repr

/-- Decoder `EventEnum::new` from `base/event.rs`: match on the type tag,
building the four recognized game-event variants from their payloads, and
fall through to `Unknown` for every other tag. -/
def EventEnum.new (e : event_any) : EventEnum :=
  if e.type_ = EVENT_TYPE_GAME_LOAD_METHODS then
    .GameLoadMethods { type_ := e.type_, client_id := e.client_id, lobby_id := e.lobby_id }
      e.methods e.init_info
  else if e.type_ = EVENT_TYPE_GAME_UNLOAD then
    .GameUnload { type_ := e.type_, client_id := e.client_id, lobby_id := e.lobby_id }
  else if e.type_ = EVENT_TYPE_GAME_STATE then
    .GameState { type_ := e.type_, client_id := e.client_id, lobby_id := e.lobby_id }
      e.state
  else if e.type_ = EVENT_TYPE_GAME_MOVE then
    .GameMove { type_ := e.type_, client_id := e.client_id, lobby_id := e.lobby_id }
      e.player { md := MoveDataR.from_ref e.data.md, sync_ctr := e.data.sync_ctr }
  else .Unknown

/-- Example game state from `example/src/game.rs` (`Nim`); the `Counter`
fields are u16 in the source, and the operations below stay within range on
the claims' inputs. -/
structure Nim where
  counter : Nat
  max_sub : Nat
  initial_counter : Nat
  turn : Bool
deriving DecidableEq, Repr

/-- Constructor `Nim::new`. -/
def Nim.new (counter max_sub : Nat) : Nim :=
  { counter := counter, max_sub := max_sub, initial_counter := counter
    turn := false }

/-- Helper `Nim::player_id`: player A (`turn == false`) is 1, player B
is 2. -/
def Nim.player_id (g : Nim) : Nat :=
  if g.turn then 2 else 1

/-- Helper `Nim::player_char`, rendered as a one-character string. -/
def Nim.player_char (g : Nim) : String :=
  if g.turn then "B" else "A"

/-- Helper `sub_too_large` from `example/src/game.rs`. -/
def sub_too_large (mov max : Nat) : SResult Unit :=
  if mov > max then
    .error { code := .invalidInput
             message := "can subtract at most " ++ toString max }
  else .ok ()

/-- Method `Nim::get_concrete_moves`: nothing for the player not to move,
otherwise the codes 1 up to `min max_sub counter`, appended to the cleared
buffer. -/
def Nim.get_concrete_moves (g : Nim) (player : Nat) : SResult (List Nat) :=
  if player ≠ g.player_id then .ok []
  else .ok ((List.range (min g.max_sub g.counter)).map (· + 1))

/-- Method `Nim::is_legal_move`.  The move value is the u64 `*mov.md`; the
`as Counter` cast in the final check truncates it to u16. -/
def Nim.is_legal_move (g : Nim) (player : Nat) (mov : Nat) : SResult Unit :=
  if g.counter = 0 then
    .error { code := .invalidInput, message := "game already over" }
  else if mov = 0 then
    .error { code := .invalidInput, message := "need to subtract at least one" }
  else if player ≠ g.player_id then
    .error { code := .invalidInput, message := "this player is not to move" }
  else sub_too_large (mov % 65536) g.counter

/-- Method `Nim::make_move`: subtract the (u16-truncated) move from the
counter and flip the turn. -/
def Nim.make_move (g : Nim) (_player : Nat) (mov : Nat) : SResult Nim :=
  .ok { g with counter := g.counter - mov % 65536, turn := !g.turn }

/-- Method `Nim::export_state`, appending to the supplied string buffer. -/
def Nim.export_state (g : Nim) (_player : Nat) (str_buf : String) :
    SResult String :=
  .ok (str_buf ++ g.player_char ++ " " ++ toString g.counter)

/-- Method `Nim::get_move_data`: parse handled upstream; the range check
compares against `max_sub`. -/
def Nim.get_move_data (g : Nim) (_player : Nat) (mov : Nat) : SResult Nat :=
  match sub_too_large mov g.max_sub with
  | .error e => .error e
  | .ok _ => .ok mov

/-- Metadata instance with every optional feature bit unset, used to
evaluate the table builder. -/
def metadataNoFeatures : Metadata :=
  { game_name := "Nim"
    variant_name := "Standard"
    impl_name := "mirabel_rs"
    version := { major := 0, minor := 1, patch := 0 }
    features := {} }

/-- Frontend metadata instance with the options feature bit unset. -/
def frontendMetadataNoOptions : FrontendMetadata :=
  { frontend_name := "Example"
    version := { major := 0, minor := 1, patch := 0 }
    features := {} }

/-- Capability-method behaviour that fails without touching the string
buffer, used to evaluate the failure path of the string queries. -/
def exportFailMethod : Unit → Nat → String → Unit × String × Option Error :=
  fun d _ b => (d, b, some { code := .stateCorrupted, message := "fail" })

/-- Capability-method behaviour filling the player buffer with 256
entries, one more than the `u8` out-count can carry. -/
def playersOverfill : Unit → List Nat → Unit × List Nat × Option Error :=
  fun d _ => (d, List.replicate 256 1, none)

/-- Capability-method behaviour filling the move buffer with `2 ^ 32`
entries, one more than the `u32` out-count can carry. -/
def movesOverfill : Unit → Nat → List Unit → Unit × List Unit × Option Error :=
  fun d _ _ => (d, List.replicate 4294967296 (), none)

/-- Capability-method behaviour filling the probability buffer with
`2 ^ 32` entries, one more than the `u32` out-count can carry. -/
def probabilitiesOverfill : Unit → List Nat → Unit × List Nat × Option Error :=
  fun d _ => (d, List.replicate 4294967296 0, none)

/-- Wire event carrying a type tag that is none of the four recognized
game-event tags, together with arbitrary payload contents. -/
def unknownEvent : event_any :=
  { type_ := 0
    client_id := 1
    lobby_id := 2
    methods := 3
    init_info := some "21 3"
    state := some "B 18"
    player := 1
    data := { md := { cl := 7, data := none }, sync_ctr := 0 } }

/-- C3: for every move value, decoding the wire encoding yields a value
equal to the original; the zero-length variable move encodes with a
non-null data pointer and decodes back as the empty variable move, never as
a fixed code; the owned `MixedMove` conversions round-trip through
`to_rust` in the same way. -/
theorem move_data_roundtrip :
    (∀ m : MoveDataR, MoveDataR.from_ref m.toWire = m)
    ∧ (MoveDataR.BigMove []).toWire.data ≠ none
    ∧ MoveDataR.from_ref (MoveDataR.BigMove []).toWire = .BigMove []
    ∧ (∀ v : List Nat, (MixedMove.ofVec v).to_rust = .BigMove v)
    ∧ (∀ c : Nat, (MixedMove.ofCode c).to_rust = .MoveCode c) := by
  refine ⟨?_, by simp [MoveDataR.toWire], by rfl, ?_, ?_⟩
  · intro m
    cases m with
    | MoveCode code => rfl
    | BigMove bytes =>
      rcases bytes with _ | ⟨b, bs⟩
      · rfl
      · simp [MoveDataR.toWire, MoveDataR.from_ref]
  · intro v
    simp [MixedMove.ofVec, MixedMove.to_rust, from_raw_hedged]
  · intro c
    rfl

/-- C7: one `destroy` call leaves both extension slots null and returns
the success code, and a second `destroy` on the now null-slotted handle is
a no-op that frees nothing. -/
theorem destroy_nulls_both_slots_and_is_idempotent (G M : Type)
    (g : game G M) :
    (destroy_wrapped g).1.data1 = none
    ∧ (destroy_wrapped g).1.data2 = none
    ∧ (destroy_wrapped g).2.2 = error_code.ok
    ∧ destroy_wrapped (destroy_wrapped g).1 =
        ((destroy_wrapped g).1, [], error_code.ok) := by
  rcases g with ⟨d1, d2, sc⟩
  cases d1 <;> cases d2 <;> simp [destroy_wrapped]

/-- C5 counterexample: a failed `create` leaves the handle with the
user-object slot null while the auxiliary slot is populated — the host can
observe a state where exactly one slot is populated. -/
theorem failed_create_leaves_only_aux_populated :
    ((create_wrapped (G := Unit) (M := Unit)
        (.error { code := .invalidInput, message := "boom" })
        { data1 := none, data2 := none, sync_ctr := 0 }).1.data1 = none)
    ∧ ((create_wrapped (G := Unit) (M := Unit)
        (.error { code := .invalidInput, message := "boom" })
        { data1 := none, data2 := none, sync_ctr := 0 }).1.data2.isSome
          = true) := by
  exact ⟨rfl, rfl⟩

/-- C5 (amended): after `create` the auxiliary slot is always populated
while the user-object slot is populated exactly when the capability
trait's create succeeded — a failed create intentionally leaves only the
auxiliary slot populated so the error message stays readable — and
`destroy` afterwards nulls both slots. -/
theorem create_slot_population (G M : Type) [Inhabited M]
    (c : SResult G) (g : game G M) :
    ((create_wrapped c g).1.data1 = c.toOption)
    ∧ ((create_wrapped c g).1.data2.isSome = true)
    ∧ ((destroy_wrapped (create_wrapped c g).1).1.data1 = none)
    ∧ ((destroy_wrapped (create_wrapped c g).1).1.data2 = none) := by
  cases c <;> simp [create_wrapped, destroy_wrapped, Except.toOption]

/-- C1: on successful construction the rules-engine create trampoline
stores the user object and returns the success code, but the frontend
create trampoline, while also storing the user object, returns the
feature-unsupported code instead of the success code. -/
theorem frontend_create_success_returns_feature_unsupported :
    (FrontendMethods.create_wrapped (F := Unit) (O := Unit) (.ok ()) 0 none
        { data1 := none, data2 := none }) =
      ({ data1 := some ()
         data2 := some { error := "", display_data := 0, options := none } },
        error_code.err .featureUnsupported)
    ∧ (create_wrapped (G := Unit) (M := Unit) (.ok ())
        { data1 := none, data2 := none, sync_ctr := 0 }) =
      ({ data1 := some ()
         data2 := some Aux.mkDefault, sync_ctr := 0 }, error_code.ok)
    ∧ error_code.err .featureUnsupported ≠ error_code.ok := by
  exact ⟨rfl, rfl, by decide⟩

/-- C2: the game table builder populates function-pointer entries even for
entry points whose feature bit is unset — with all optional features
disabled, the `print`, `export_options` and `get_random_move` entries are
still bound — while the frontend table builder does leave the options
entry points absent when the options bit is unset. -/
theorem game_table_entries_populated_despite_unset_features :
    ((create_game_methods false metadataNoFeatures).features.print = false)
    ∧ ((create_game_methods false metadataNoFeatures).print = some ())
    ∧ ((create_game_methods false metadataNoFeatures).features.options = false)
    ∧ ((create_game_methods false metadataNoFeatures).export_options = some ())
    ∧ ((create_game_methods false metadataNoFeatures).features.random_moves
        = false)
    ∧ ((create_game_methods false metadataNoFeatures).get_random_move
        = some ())
    ∧ ((create_frontend_methods frontendMetadataNoOptions).opts_create = none)
    ∧ ((create_frontend_methods frontendMetadataNoOptions).opts_display = none)
    ∧ ((create_frontend_methods frontendMetadataNoOptions).opts_destroy
        = none) := by
  exact ⟨rfl, rfl, rfl, rfl, rfl, rfl, rfl, rfl, rfl⟩

/-- C8: evaluating the example counting game created with start value 21
and maximum decrement 3: player A's enumerated moves are exactly 1, 2, 3;
applying move 3 yields the state exporting as "B 18"; but at that state the
code's `is_legal_move` accepts move 4 (it bounds moves by the remaining
counter instead of the maximum decrement), where the claim requires an
invalid-move-range failure — while `get_move_data` on the same input does
reject 4 against the maximum decrement. -/
theorem nim_scenario_eval :
    ((Nim.new 21 3).get_concrete_moves 1 = .ok [1, 2, 3])
    ∧ ((Nim.new 21 3).make_move 1 3 =
        .ok { counter := 18, max_sub := 3, initial_counter := 21
              turn := true })
    ∧ (Nim.export_state
        { counter := 18, max_sub := 3, initial_counter := 21, turn := true }
        2 "" = .ok "B 18")
    ∧ (Nim.is_legal_move
        { counter := 18, max_sub := 3, initial_counter := 21, turn := true }
        2 4 = .ok ())
    ∧ (Nim.get_move_data
        { counter := 18, max_sub := 3, initial_counter := 21, turn := true }
        2 4 = .error { code := .invalidInput
                       message := "can subtract at most 3" }) := by
  exact ⟨rfl, rfl, rfl, rfl, rfl⟩

/-- C4 counterexample: the state string and the move string share the one
auxiliary string buffer, so a successful move-string fetch overwrites the
buffer contents previously returned by a state export — fetching one kind
does invalidate the other kind's previously returned view. -/
theorem move_str_fetch_overwrites_state_str_view :
    ((export_state_wrapped (G := Unit) (M := Unit)
        (fun d _ b => (d, b ++ "A 21", none)) 1 () Aux.mkDefault).aux.str_buf
      = "A 21")
    ∧ ((get_move_str_wrapped (G := Unit) (M := Unit) (R := Nat)
        (fun md => md.cl) (fun d _ _ b => (d, b ++ "3", none)) 1
        { md := { cl := 3, data := none }, sync_ctr := 0 } ()
        (export_state_wrapped (G := Unit) (M := Unit)
          (fun d _ b => (d, b ++ "A 21", none)) 1 ()
          Aux.mkDefault).aux).aux.str_buf = "3")
    ∧ (("3" : String) ≠ "A 21") := by
  exact ⟨rfl, rfl, by decide⟩

/-- C4 (amended): the auxiliary buffers are shared per slot, not per query
kind; a move-string fetch leaves the player, move, probability and
move-scratch buffers unchanged and leaves the string buffer holding
exactly what the current call's capability method produced from the empty
buffer, regardless of any previously fetched string view. -/
theorem get_move_str_buffer_effects (G M R : Type)
    (toRust : move_data → R)
    (method : G → Nat → MoveDataSync R → String → G × String × Option Error)
    (player : Nat) (mov : MoveDataSync move_data) (d : G) (aux : Aux M) :
    ((get_move_str_wrapped toRust method player mov d aux).aux.player_buf
      = aux.player_buf)
    ∧ ((get_move_str_wrapped toRust method player mov d aux).aux.move_buf
      = aux.move_buf)
    ∧ ((get_move_str_wrapped toRust method player mov d aux).aux.float_buf
      = aux.float_buf)
    ∧ ((get_move_str_wrapped toRust method player mov d aux).aux.sync_buf
      = aux.sync_buf)
    ∧ ((get_move_str_wrapped toRust method player mov d aux).aux.str_buf
      = (method d player { md := toRust mov.md, sync_ctr := mov.sync_ctr }
          "").2.1) := by
  unfold get_move_str_wrapped
  rcases h : method d player { md := toRust mov.md, sync_ctr := mov.sync_ctr }
      "" with ⟨d2, buf, res⟩
  cases res <;> simp

/-- C6 counterexample: a failing state export does not leave the string
buffer in the state of its last successful write — the trampoline resets
the buffer to empty before invoking the capability method, so after a
failure the previously exported contents are gone. -/
theorem failing_export_clears_previous_string_view :
    ((export_state_wrapped (G := Unit) (M := Unit) exportFailMethod 1 ()
        { Aux.mkDefault with str_buf := "A 21" }).aux.str_buf = "")
    ∧ ((export_state_wrapped (G := Unit) (M := Unit) exportFailMethod 1 ()
        { Aux.mkDefault with str_buf := "A 21" }).code
      = .err .stateCorrupted)
    ∧ (("" : String) ≠ "A 21") := by
  exact ⟨rfl, rfl, by decide⟩

/-- C6 (amended): on the failure path of a string query the error-message
slot is written and the failure code returned with no success output, but
the query's own buffer was reset at call entry, so it ends holding
whatever the capability method wrote starting from empty — not the
contents of the last successful write. -/
theorem export_state_failure_path (G M : Type)
    (method : G → Nat → String → G × String × Option Error)
    (player : Nat) (d : G) (aux : Aux M) (e : Error)
    (hfail : (method d player "").2.2 = some e) :
    ((export_state_wrapped method player d aux).aux.error = e.message)
    ∧ ((export_state_wrapped method player d aux).code = .err e.code)
    ∧ ((export_state_wrapped method player d aux).output = none)
    ∧ ((export_state_wrapped method player d aux).aux.str_buf
      = (method d player "").2.1) := by
  unfold export_state_wrapped
  rcases h : method d player "" with ⟨d2, buf, res⟩
  rw [h] at hfail
  cases res with
  | none => exact Option.noConfusion hfail
  | some e2 =>
    have h2 : e2 = e := Option.some.inj hfail
    subst h2
    exact ⟨rfl, rfl, rfl, rfl⟩

/-- Witness for the C6 theorem at a concrete failing method. -/
theorem export_state_failure_path_witness :
    ((export_state_wrapped (G := Unit) (M := Unit) exportFailMethod 1 ()
        Aux.mkDefault).aux.error = "fail")
    ∧ ((export_state_wrapped (G := Unit) (M := Unit) exportFailMethod 1 ()
        Aux.mkDefault).code = .err .stateCorrupted)
    ∧ ((export_state_wrapped (G := Unit) (M := Unit) exportFailMethod 1 ()
        Aux.mkDefault).output = none)
    ∧ ((export_state_wrapped (G := Unit) (M := Unit) exportFailMethod 1 ()
        Aux.mkDefault).aux.str_buf = "") :=
  export_state_failure_path Unit Unit exportFailMethod 1 () Aux.mkDefault
    { code := .stateCorrupted, message := "fail" } rfl

/-- C9: when a capability method fills the players-to-move, concrete-moves,
results or probability buffer with more elements than the ABI's out-count
type can carry (more than 255 players or more than `2 ^ 32 - 1`
moves/probabilities), the corresponding trampoline aborts the process (the
result `none` models the `expect` panic) instead of returning an error
code or truncating. -/
theorem oversized_out_buffers_abort (G M : Type) (d : G) (aux : Aux M)
    (pm : G → List Nat → G × List Nat × Option Error)
    (gm : G → Nat → List M → G × List M × Option Error)
    (gr : G → List Nat → G × List Nat × Option Error)
    (gp : G → List Nat → G × List Nat × Option Error)
    (player : Nat)
    (hpmok : (pm d []).2.2 = none) (hpmlen : 255 < (pm d []).2.1.length)
    (hgmok : (gm d player []).2.2 = none)
    (hgmlen : 4294967295 < (gm d player []).2.1.length)
    (hgrok : (gr d []).2.2 = none) (hgrlen : 255 < (gr d []).2.1.length)
    (hgpok : (gp d []).2.2 = none)
    (hgplen : 4294967295 < (gp d []).2.1.length) :
    (players_to_move_wrapped pm d aux = none)
    ∧ (get_concrete_moves_wrapped gm player d aux = none)
    ∧ (get_results_wrapped gr d aux = none)
    ∧ (get_concrete_move_probabilities_wrapped gp d aux = none) := by
  refine ⟨?_, ?_, ?_, ?_⟩
  · unfold players_to_move_wrapped
    rcases h : pm d [] with ⟨d2, buf, res⟩
    rw [h] at hpmok hpmlen
    have hres : res = none := hpmok
    have hl : 255 < buf.length := hpmlen
    subst hres
    have hn : ¬ buf.length ≤ 255 := by omega
    simp [hn]
  · unfold get_concrete_moves_wrapped
    rcases h : gm d player [] with ⟨d2, buf, res⟩
    rw [h] at hgmok hgmlen
    have hres : res = none := hgmok
    have hl : 4294967295 < buf.length := hgmlen
    subst hres
    have hn : ¬ buf.length ≤ 4294967295 := by omega
    simp [hn]
  · unfold get_results_wrapped
    rcases h : gr d [] with ⟨d2, buf, res⟩
    rw [h] at hgrok hgrlen
    have hres : res = none := hgrok
    have hl : 255 < buf.length := hgrlen
    subst hres
    have hn : ¬ buf.length ≤ 255 := by omega
    simp [hn]
  · unfold get_concrete_move_probabilities_wrapped
    rcases h : gp d [] with ⟨d2, buf, res⟩
    rw [h] at hgpok hgplen
    have hres : res = none := hgpok
    have hl : 4294967295 < buf.length := hgplen
    subst hres
    have hn : ¬ buf.length ≤ 4294967295 := by omega
    simp [hn]

/-- Witness for the C9 theorem at concrete overfilled buffers. -/
theorem oversized_out_buffers_abort_witness :
    (players_to_move_wrapped (G := Unit) (M := Unit) playersOverfill ()
        Aux.mkDefault = none)
    ∧ (get_concrete_moves_wrapped (G := Unit) (M := Unit) movesOverfill 1 ()
        Aux.mkDefault = none)
    ∧ (get_results_wrapped (G := Unit) (M := Unit) playersOverfill ()
        Aux.mkDefault = none)
    ∧ (get_concrete_move_probabilities_wrapped (G := Unit) (M := Unit)
        probabilitiesOverfill () Aux.mkDefault = none) :=
  oversized_out_buffers_abort Unit Unit () Aux.mkDefault playersOverfill
    movesOverfill playersOverfill probabilitiesOverfill 1
    rfl (by rw [show (playersOverfill () []).2.1 = List.replicate 256 1 from rfl,
      List.length_replicate]; omega)
    rfl (by rw [show (movesOverfill () 1 []).2.1 = List.replicate 4294967296 ()
      from rfl, List.length_replicate]; omega)
    rfl (by rw [show (playersOverfill () []).2.1 = List.replicate 256 1 from rfl,
      List.length_replicate]; omega)
    rfl (by rw [show (probabilitiesOverfill () []).2.1
      = List.replicate 4294967296 0 from rfl, List.length_replicate]; omega)

/-- C10: event decoding is total over the type tag — every wire event
whose tag is none of the four recognized game-event tags decodes to the
`Unknown` variant, whatever its payload holds. -/
theorem event_decode_unknown_tag (e : event_any)
    (h1 : e.type_ ≠ EVENT_TYPE_GAME_LOAD_METHODS)
    (h2 : e.type_ ≠ EVENT_TYPE_GAME_UNLOAD)
    (h3 : e.type_ ≠ EVENT_TYPE_GAME_STATE)
    (h4 : e.type_ ≠ EVENT_TYPE_GAME_MOVE) :
    EventEnum.new e = .Unknown := by
  simp [EventEnum.new, h1, h2, h3, h4]

/-- Witness for the C10 theorem at a concrete unrecognized event. -/
theorem event_decode_unknown_tag_witness :
    EventEnum.new unknownEvent = .Unknown :=
  event_decode_unknown_tag unknownEvent (by decide) (by decide) (by decide)
    (by decide)

end MirabelRs
